import Mathlib

/-!
# Verification of the forensic WACC solver (`wacc_module.py`)

Shallow embedding of the repository's `src/wacc_module.py` over exact
rationals (`ℚ` stands in for Python floats; the module's arithmetic is
plain field arithmetic with guarded divisions).

The Python module raises `ValueError` with distinct messages; the spec
classifies those raise sites into three error kinds (`InvalidInput`,
`NotIdentifiable`, `InconsistentInputs`).  The embedding keeps one
constructor per kind, carrying the exact message string of the raise
site (for `InconsistentInputs` the out-of-range implied equity weight
is carried as a payload, mirroring the value interpolated into the
Python message).  The final `raise ValueError("Unexpected solver
state.")` fallback, together with the interpreter-level failures that
would arise from using an absent (`None`) operand as a number on paths
the dispatcher can never take, is modelled by `unexpectedState`.
-/

namespace WaccModule

/-- The five solver variables of `solve_missing`, in the dictionary
order used by the Python `params` dict. -/
inductive Var where
  | equityValue
  | debtValue
  | costOfEquity
  | costOfDebt
  | taxRate
deriving DecidableEq, Repr

/-- Error outcomes of the module, one constructor per error kind of the
spec; messages are the exact Python `ValueError` messages. -/
inductive WaccError where
  | invalidInput (msg : String)
  | notIdentifiable (msg : String)
  | inconsistentInputs (impliedWE : ℚ)
  | unexpectedState
deriving DecidableEq, Repr

/-- Result dictionary of `calculate_wacc`. -/
structure ForwardResult where
  equity_value : ℚ
  debt_value : ℚ
  cost_of_equity : ℚ
  cost_of_debt : ℚ
  tax_rate : ℚ
  equity_weight : ℚ
  debt_weight : ℚ
  wacc : ℚ
deriving DecidableEq, Repr

/-- Result dictionary of `solve_missing`:
`{"missing": variable, "value": solved_value, "wE": ..., "wD": ...}`. -/
structure ReverseResult where
  missing : Var
  value : ℚ
  wE : ℚ
  wD : ℚ
deriving DecidableEq, Repr

/-- Embeds `_weights(E, D)`: capital-structure weights, with the three
validation checks of the source (presence, non-negativity, nonzero
total). -/
def _weights (E D : Option ℚ) : Except WaccError (ℚ × ℚ) :=
  match E, D with
  | some e, some d =>
    if e < 0 ∨ d < 0 then
      .error (.invalidInput "Equity and Debt must be non-negative.")
    else if e + d = 0 then
      .error (.invalidInput "E + D cannot be zero.")
    else
      .ok (e / (e + d), 1 - e / (e + d))
  | _, _ => .error (.invalidInput "Equity (E) and Debt (D) must be provided.")

/-- Embeds `calculate_wacc`: forward WACC computation.  The two capital
values are optional because `_weights` checks for their absence; the
cost rates and tax rate are plain numbers (the source would fault on a
`None` there before any check, so callers pass numbers). -/
def calculate_wacc (equity_value debt_value : Option ℚ)
    (cost_of_equity cost_of_debt tax_rate : ℚ) : Except WaccError ForwardResult :=
  match _weights equity_value debt_value with
  | .error err => .error err
  | .ok (wE, wD) =>
    if ¬(0 ≤ tax_rate ∧ tax_rate ≤ 1) then
      .error (.invalidInput "Tax rate must be within [0, 1].")
    else
      .ok { equity_value := equity_value.getD 0
            debt_value := debt_value.getD 0
            cost_of_equity := cost_of_equity
            cost_of_debt := cost_of_debt
            tax_rate := tax_rate
            equity_weight := wE
            debt_weight := wD
            wacc := wE * cost_of_equity + wD * cost_of_debt * (1 - tax_rate) }

/-- The list `missing = [k for k, v in params.items() if v is None]`,
in the insertion order of the Python `params` dict. -/
def missingList (equity_value debt_value cost_of_equity cost_of_debt tax_rate :
    Option ℚ) : List Var :=
  (if equity_value.isNone then [Var.equityValue] else []) ++
  (if debt_value.isNone then [Var.debtValue] else []) ++
  (if cost_of_equity.isNone then [Var.costOfEquity] else []) ++
  (if cost_of_debt.isNone then [Var.costOfDebt] else []) ++
  (if tax_rate.isNone then [Var.taxRate] else [])

/-- Embeds `solve_missing`: back-solves the single absent variable of
the WACC equation.  Structure mirrors the Python source: the
exactly-one-absent check, then a chain of `if miss == ...` branches,
with the final fallback `raise ValueError("Unexpected solver state.")`
as the terminal `else`.  Paths on which the Python code would use an
absent operand as a number (impossible once exactly one variable is
absent) are also mapped to `unexpectedState`. -/
def solve_missing (wacc : ℚ)
    (equity_value debt_value cost_of_equity cost_of_debt tax_rate : Option ℚ) :
    Except WaccError ReverseResult :=
  match missingList equity_value debt_value cost_of_equity cost_of_debt tax_rate with
  | [miss] =>
    if miss = Var.costOfEquity then
      match _weights equity_value debt_value with
      | .error err => .error err
      | .ok (wE, wD) =>
        if wE = 0 then
          .error (.notIdentifiable "Cannot solve Ke when equity weight is zero.")
        else
          match cost_of_debt, tax_rate with
          | some kd, some t =>
            .ok { missing := miss, value := (wacc - wD * kd * (1 - t)) / wE
                  wE := wE, wD := wD }
          | _, _ => .error .unexpectedState
    else if miss = Var.costOfDebt then
      match _weights equity_value debt_value with
      | .error err => .error err
      | .ok (wE, wD) =>
        match cost_of_equity, tax_rate with
        | some ke, some t =>
          let denom := wD * (1 - t)
          if denom = 0 then
            .error (.notIdentifiable "Cannot solve Kd: denominator zero (check D and T).")
          else
            .ok { missing := miss, value := (wacc - wE * ke) / denom
                  wE := wE, wD := wD }
        | _, _ => .error .unexpectedState
    else if miss = Var.taxRate then
      match _weights equity_value debt_value with
      | .error err => .error err
      | .ok (wE, wD) =>
        match cost_of_equity, cost_of_debt with
        | some ke, some kd =>
          let denom := wD * kd
          if denom = 0 then
            .error (.notIdentifiable "Cannot solve T: denominator zero (check D and Kd).")
          else
            .ok { missing := miss, value := 1 - (wacc - wE * ke) / denom
                  wE := wE, wD := wD }
        | _, _ => .error .unexpectedState
    else if miss = Var.equityValue ∨ miss = Var.debtValue then
      match cost_of_equity, cost_of_debt, tax_rate with
      | some ke, some kd, some t =>
        let A := ke
        let B := kd * (1 - t)
        let denom := A - B
        if denom = 0 then
          .error (.notIdentifiable "Cannot infer weights: Ke == Kd*(1-T).")
        else
          let wE := (wacc - B) / denom
          if ¬(0 ≤ wE ∧ wE ≤ 1) then
            .error (.inconsistentInputs wE)
          else
            let wD := 1 - wE
            if miss = Var.equityValue then
              match debt_value with
              | none => .error (.invalidInput "To solve E, provide D.")
              | some d =>
                if wD = 0 then
                  .error (.notIdentifiable "Debt weight zero; E not identifiable.")
                else
                  .ok { missing := miss, value := (wE / wD) * d, wE := wE, wD := wD }
            else
              match equity_value with
              | none => .error (.invalidInput "To solve D, provide E.")
              | some e =>
                if wE = 0 then
                  .error (.notIdentifiable "Equity weight zero; D not identifiable.")
                else
                  .ok { missing := miss, value := (wD / wE) * e, wE := wE, wD := wD }
      | _, _, _ => .error .unexpectedState
    else .error .unexpectedState
  | _ => .error (.invalidInput "Provide exactly four inputs (one missing).")

/-- Solved value of a `solve_missing` outcome, when it succeeded. -/
def solvedValue (x : Except WaccError ReverseResult) : Option ℚ :=
  match x with
  | .ok r => some r.value
  | .error _ => none

/-- Round a rational to the nearest integer, ties to even — the
rounding used by Python's fixed-point `format` specifier. -/
def roundHalfEven (q : ℚ) : ℤ :=
  let f := ⌊q⌋
  let r := q - (f : ℚ)
  if r < 1 / 2 then f
  else if 1 / 2 < r then f + 1
  else if f % 2 = 0 then f else f + 1

/-- Left-pad a numeral string with zeros to six characters. -/
def pad6 (s : String) : String :=
  String.mk (List.replicate (6 - s.length) '0') ++ s

/-- Render a rational the way Python's `f"{q:.6f}"` renders the
corresponding float: sign, integer part, point, exactly six fractional
digits, rounding half to even. -/
def formatFixed6 (q : ℚ) : String :=
  let m := (roundHalfEven (|q| * 1000000)).toNat
  let sign := if q < 0 then "-" else ""
  sign ++ toString (m / 1000000) ++ "." ++ pad6 (toString (m % 1000000))

/-- Embeds `format_percent(x, decimals=6)`: the body is
`f"{x * 100:.6f}%"`, which never consults `decimals`. -/
def format_percent (x : ℚ) (decimals : ℕ := 6) : String :=
  formatFixed6 (x * 100) ++ "%"

/-- The implied equity weight `wE = (wacc - B) / (A - B)` (with
`A = Ke`, `B = Kd*(1 - T)`) computed by the `equity_value` /
`debt_value` branches of `solve_missing`. -/
def impliedWE (wacc ke kd t : ℚ) : ℚ := (wacc - kd * (1 - t)) / (ke - kd * (1 - t))

/-! ## Evaluation lemmas for the individual code paths -/

theorem weights_ok (e d : ℚ) (he : 0 ≤ e) (hd : 0 ≤ d) (hs : 0 < e + d) :
    _weights (some e) (some d) = .ok (e / (e + d), 1 - e / (e + d)) := by
  have h1 : ¬(e < 0 ∨ d < 0) := by push_neg; exact ⟨he, hd⟩
  have h2 : e + d ≠ 0 := ne_of_gt hs
  simp [_weights, h1, h2]

theorem calculate_wacc_ok (e d ke kd t : ℚ) (he : 0 ≤ e) (hd : 0 ≤ d) (hs : 0 < e + d)
    (ht0 : 0 ≤ t) (ht1 : t ≤ 1) :
    calculate_wacc (some e) (some d) ke kd t =
      .ok { equity_value := e, debt_value := d, cost_of_equity := ke, cost_of_debt := kd,
            tax_rate := t, equity_weight := e / (e + d), debt_weight := 1 - e / (e + d),
            wacc := (e / (e + d)) * ke + (1 - e / (e + d)) * kd * (1 - t) } := by
  simp [calculate_wacc, weights_ok e d he hd hs, ht0, ht1]

theorem solve_Ke_eval (w e d kd t : ℚ) (he : 0 ≤ e) (hd : 0 ≤ d) (hs : 0 < e + d)
    (hne : e / (e + d) ≠ 0) :
    solve_missing w (some e) (some d) none (some kd) (some t) =
      .ok { missing := .costOfEquity,
            value := (w - (1 - e / (e + d)) * kd * (1 - t)) / (e / (e + d)),
            wE := e / (e + d), wD := 1 - e / (e + d) } := by
  simp [solve_missing, missingList, weights_ok e d he hd hs, hne]

theorem solve_Ke_zero (w e d kd t : ℚ) (he : 0 ≤ e) (hd : 0 ≤ d) (hs : 0 < e + d)
    (hz : e / (e + d) = 0) :
    solve_missing w (some e) (some d) none (some kd) (some t) =
      .error (.notIdentifiable "Cannot solve Ke when equity weight is zero.") := by
  simp [solve_missing, missingList, weights_ok e d he hd hs, hz]

theorem solve_Kd_eval (w e d ke t : ℚ) (he : 0 ≤ e) (hd : 0 ≤ d) (hs : 0 < e + d)
    (hne : (1 - e / (e + d)) * (1 - t) ≠ 0) :
    solve_missing w (some e) (some d) (some ke) none (some t) =
      .ok { missing := .costOfDebt,
            value := (w - (e / (e + d)) * ke) / ((1 - e / (e + d)) * (1 - t)),
            wE := e / (e + d), wD := 1 - e / (e + d) } := by
  simp [solve_missing, missingList, weights_ok e d he hd hs, hne]

theorem solve_Kd_zero (w e d ke t : ℚ) (he : 0 ≤ e) (hd : 0 ≤ d) (hs : 0 < e + d)
    (hz : (1 - e / (e + d)) * (1 - t) = 0) :
    solve_missing w (some e) (some d) (some ke) none (some t) =
      .error (.notIdentifiable "Cannot solve Kd: denominator zero (check D and T).") := by
  simp [solve_missing, missingList, weights_ok e d he hd hs, hz]

theorem solve_T_eval (w e d ke kd : ℚ) (he : 0 ≤ e) (hd : 0 ≤ d) (hs : 0 < e + d)
    (hne : (1 - e / (e + d)) * kd ≠ 0) :
    solve_missing w (some e) (some d) (some ke) (some kd) none =
      .ok { missing := .taxRate,
            value := 1 - (w - (e / (e + d)) * ke) / ((1 - e / (e + d)) * kd),
            wE := e / (e + d), wD := 1 - e / (e + d) } := by
  simp [solve_missing, missingList, weights_ok e d he hd hs, hne]

theorem solve_T_zero (w e d ke kd : ℚ) (he : 0 ≤ e) (hd : 0 ≤ d) (hs : 0 < e + d)
    (hz : (1 - e / (e + d)) * kd = 0) :
    solve_missing w (some e) (some d) (some ke) (some kd) none =
      .error (.notIdentifiable "Cannot solve T: denominator zero (check D and Kd).") := by
  simp [solve_missing, missingList, weights_ok e d he hd hs, hz]

theorem solve_E_denom_zero (w d ke kd t : ℚ) (hz : ke - kd * (1 - t) = 0) :
    solve_missing w none (some d) (some ke) (some kd) (some t) =
      .error (.notIdentifiable "Cannot infer weights: Ke == Kd*(1-T).") := by
  simp [solve_missing, missingList, hz]

theorem solve_D_denom_zero (w e ke kd t : ℚ) (hz : ke - kd * (1 - t) = 0) :
    solve_missing w (some e) none (some ke) (some kd) (some t) =
      .error (.notIdentifiable "Cannot infer weights: Ke == Kd*(1-T).") := by
  simp [solve_missing, missingList, hz]

theorem solve_E_out_of_range (w d ke kd t : ℚ)
    (hout : ¬(0 ≤ impliedWE w ke kd t ∧ impliedWE w ke kd t ≤ 1)) :
    solve_missing w none (some d) (some ke) (some kd) (some t) =
      .error (.inconsistentInputs (impliedWE w ke kd t)) := by
  have hz : ke - kd * (1 - t) ≠ 0 := by
    intro h
    apply hout
    simp [impliedWE, h]
  simp only [impliedWE] at hout
  simp [solve_missing, missingList, hz, hout, impliedWE]

theorem solve_D_out_of_range (w e ke kd t : ℚ)
    (hout : ¬(0 ≤ impliedWE w ke kd t ∧ impliedWE w ke kd t ≤ 1)) :
    solve_missing w (some e) none (some ke) (some kd) (some t) =
      .error (.inconsistentInputs (impliedWE w ke kd t)) := by
  have hz : ke - kd * (1 - t) ≠ 0 := by
    intro h
    apply hout
    simp [impliedWE, h]
  simp only [impliedWE] at hout
  simp [solve_missing, missingList, hz, hout, impliedWE]

theorem solve_E_wD_zero (w d ke kd t : ℚ) (hz : ke - kd * (1 - t) ≠ 0)
    (h1 : impliedWE w ke kd t = 1) :
    solve_missing w none (some d) (some ke) (some kd) (some t) =
      .error (.notIdentifiable "Debt weight zero; E not identifiable.") := by
  simp only [impliedWE] at h1
  simp [solve_missing, missingList, hz, h1]

theorem solve_D_wE_zero (w e ke kd t : ℚ) (hz : ke - kd * (1 - t) ≠ 0)
    (h0 : impliedWE w ke kd t = 0) :
    solve_missing w (some e) none (some ke) (some kd) (some t) =
      .error (.notIdentifiable "Equity weight zero; D not identifiable.") := by
  simp only [impliedWE] at h0
  simp [solve_missing, missingList, hz, h0]

theorem solve_E_eval (w d ke kd t : ℚ) (hz : ke - kd * (1 - t) ≠ 0)
    (hin : 0 ≤ impliedWE w ke kd t ∧ impliedWE w ke kd t ≤ 1)
    (hwD : 1 - impliedWE w ke kd t ≠ 0) :
    solve_missing w none (some d) (some ke) (some kd) (some t) =
      .ok { missing := .equityValue,
            value := (impliedWE w ke kd t / (1 - impliedWE w ke kd t)) * d,
            wE := impliedWE w ke kd t, wD := 1 - impliedWE w ke kd t } := by
  obtain ⟨h0, h1⟩ := hin
  simp only [impliedWE] at h0 h1 hwD ⊢
  simp [solve_missing, missingList, hz, h0, h1, hwD]

theorem solve_D_eval (w e ke kd t : ℚ) (hz : ke - kd * (1 - t) ≠ 0)
    (hin : 0 ≤ impliedWE w ke kd t ∧ impliedWE w ke kd t ≤ 1)
    (hwE : impliedWE w ke kd t ≠ 0) :
    solve_missing w (some e) none (some ke) (some kd) (some t) =
      .ok { missing := .debtValue,
            value := ((1 - impliedWE w ke kd t) / impliedWE w ke kd t) * e,
            wE := impliedWE w ke kd t, wD := 1 - impliedWE w ke kd t } := by
  obtain ⟨h0, h1⟩ := hin
  simp only [impliedWE] at h0 h1 hwE ⊢
  simp [solve_missing, missingList, hz, h0, h1, hwE]

theorem roundHalfEven_intCast (n : ℤ) : roundHalfEven (n : ℚ) = n := by
  simp [roundHalfEven, Int.floor_intCast]

/-! ## Claims -/

/-- C1, counterexample: the round-trip does not hold for every valid
input.  At the valid inputs E = 0, D = 100, Ke = 0.10, Kd = 0.06,
T = 0.25, `calculate_wacc` yields wacc = 0.045, but back-solving for
the absent `cost_of_equity` fails with a `NotIdentifiable` error
(equity weight is zero) instead of returning 0.10. -/
theorem roundtrip_cex :
    calculate_wacc (some 0) (some 100) (1/10) (3/50) (1/4) =
      .ok { equity_value := 0, debt_value := 100, cost_of_equity := 1/10, cost_of_debt := 3/50,
            tax_rate := 1/4, equity_weight := 0, debt_weight := 1, wacc := 9/200 } ∧
    solve_missing (9/200) (some 0) (some 100) none (some (3/50)) (some (1/4)) =
      .error (.notIdentifiable "Cannot solve Ke when equity weight is zero.") ∧
    solvedValue (solve_missing (9/200) (some 0) (some 100) none (some (3/50)) (some (1/4))) ≠
      some (1/10) := by
  refine ⟨by norm_num [calculate_wacc, _weights], ?_, ?_⟩
  · norm_num [solve_missing, missingList, _weights]
  · rw [solve_Ke_zero (9/200) 0 100 (3/50) (1/4) (by norm_num) (by norm_num) (by norm_num)
      (by norm_num)]
    simp [solvedValue]

/-- C1, amended: for every valid CapitalInputs, if `calculate_wacc`
produces `wacc`, then `solve_missing` with that `wacc` and one field
absent recovers the original value of that field exactly (hence within
any tolerance), provided the branch is nondegenerate: equityValue ≠ 0
for the costOfEquity branch; debtValue ≠ 0 and taxRate ≠ 1 for
costOfDebt; debtValue ≠ 0 and costOfDebt ≠ 0 for taxRate; and
costOfEquity ≠ costOfDebt·(1−taxRate) together with debtValue ≠ 0
(resp. equityValue ≠ 0) for the equityValue (resp. debtValue) branch. -/
theorem roundtrip_amended (e d ke kd t w : ℚ) (res : ForwardResult)
    (he : 0 ≤ e) (hd : 0 ≤ d) (hs : 0 < e + d) (ht0 : 0 ≤ t) (ht1 : t ≤ 1)
    (hcalc : calculate_wacc (some e) (some d) ke kd t = .ok res) (hres : res.wacc = w) :
    (e ≠ 0 → solvedValue (solve_missing w (some e) (some d) none (some kd) (some t)) = some ke) ∧
    (d ≠ 0 → t ≠ 1 → solvedValue (solve_missing w (some e) (some d) (some ke) none (some t)) = some kd) ∧
    (d ≠ 0 → kd ≠ 0 → solvedValue (solve_missing w (some e) (some d) (some ke) (some kd) none) = some t) ∧
    (ke ≠ kd * (1 - t) → d ≠ 0 → solvedValue (solve_missing w none (some d) (some ke) (some kd) (some t)) = some e) ∧
    (ke ≠ kd * (1 - t) → e ≠ 0 → solvedValue (solve_missing w (some e) none (some ke) (some kd) (some t)) = some d) := by
  have hsne : e + d ≠ 0 := ne_of_gt hs
  have hw : w = (e / (e + d)) * ke + (1 - e / (e + d)) * kd * (1 - t) := by
    rw [calculate_wacc_ok e d ke kd t he hd hs ht0 ht1] at hcalc
    cases hcalc
    exact hres.symm
  have hwD_eq : 1 - e / (e + d) = d / (e + d) := by field_simp
  refine ⟨?_, ?_, ?_, ?_, ?_⟩
  · intro he0
    have hwE : e / (e + d) ≠ 0 := div_ne_zero he0 hsne
    rw [solve_Ke_eval w e d kd t he hd hs hwE]
    simp only [solvedValue, Option.some.injEq]
    rw [hw, show (e / (e + d)) * ke + (1 - e / (e + d)) * kd * (1 - t) -
        (1 - e / (e + d)) * kd * (1 - t) = ke * (e / (e + d)) by ring,
      mul_div_assoc, div_self hwE, mul_one]
  · intro hd0 ht1'
    have hne : (1 - e / (e + d)) * (1 - t) ≠ 0 := by
      rw [hwD_eq]
      exact mul_ne_zero (div_ne_zero hd0 hsne) (sub_ne_zero.mpr (Ne.symm ht1'))
    rw [solve_Kd_eval w e d ke t he hd hs hne]
    simp only [solvedValue, Option.some.injEq]
    rw [hw, show (e / (e + d)) * ke + (1 - e / (e + d)) * kd * (1 - t) - (e / (e + d)) * ke =
        kd * ((1 - e / (e + d)) * (1 - t)) by ring,
      mul_div_assoc, div_self hne, mul_one]
  · intro hd0 hkd0
    have hne : (1 - e / (e + d)) * kd ≠ 0 := by
      rw [hwD_eq]
      exact mul_ne_zero (div_ne_zero hd0 hsne) hkd0
    rw [solve_T_eval w e d ke kd he hd hs hne]
    simp only [solvedValue, Option.some.injEq]
    rw [hw, show (e / (e + d)) * ke + (1 - e / (e + d)) * kd * (1 - t) - (e / (e + d)) * ke =
        (1 - t) * ((1 - e / (e + d)) * kd) by ring,
      mul_div_assoc, div_self hne, mul_one]
    ring
  · intro hAB hd0
    have hz : ke - kd * (1 - t) ≠ 0 := sub_ne_zero.mpr hAB
    have hWE : impliedWE w ke kd t = e / (e + d) := by
      simp only [impliedWE]
      rw [hw, show (e / (e + d)) * ke + (1 - e / (e + d)) * kd * (1 - t) - kd * (1 - t) =
          (e / (e + d)) * (ke - kd * (1 - t)) by ring,
        mul_div_assoc, div_self hz, mul_one]
    have hin : 0 ≤ impliedWE w ke kd t ∧ impliedWE w ke kd t ≤ 1 := by
      rw [hWE]
      exact ⟨div_nonneg he hs.le, (div_le_one hs).mpr (by linarith)⟩
    have hwDne : 1 - impliedWE w ke kd t ≠ 0 := by
      rw [hWE, hwD_eq]
      exact div_ne_zero hd0 hsne
    rw [solve_E_eval w d ke kd t hz hin hwDne]
    simp only [solvedValue, Option.some.injEq]
    rw [hWE, hwD_eq, div_div_div_cancel_right₀ hsne]
    field_simp
  · intro hAB he0
    have hz : ke - kd * (1 - t) ≠ 0 := sub_ne_zero.mpr hAB
    have hWE : impliedWE w ke kd t = e / (e + d) := by
      simp only [impliedWE]
      rw [hw, show (e / (e + d)) * ke + (1 - e / (e + d)) * kd * (1 - t) - kd * (1 - t) =
          (e / (e + d)) * (ke - kd * (1 - t)) by ring,
        mul_div_assoc, div_self hz, mul_one]
    have hin : 0 ≤ impliedWE w ke kd t ∧ impliedWE w ke kd t ≤ 1 := by
      rw [hWE]
      exact ⟨div_nonneg he hs.le, (div_le_one hs).mpr (by linarith)⟩
    have hwEne : impliedWE w ke kd t ≠ 0 := by
      rw [hWE]
      exact div_ne_zero he0 hsne
    rw [solve_D_eval w e ke kd t hz hin hwEne]
    simp only [solvedValue, Option.some.injEq]
    rw [hWE, hwD_eq, div_div_div_cancel_right₀ hsne]
    field_simp

/-- Witness for C1 (amended), at the spec's end-to-end example
E = 12000, D = 2000, Ke = 0.10, Kd = 0.067, T = 0.25,
wacc = 2601/28000 ≈ 0.09289: each of the five reverse solves recovers
the original value exactly. -/
theorem roundtrip_amended_witness :
    solvedValue (solve_missing (2601/28000) (some 12000) (some 2000) none (some (67/1000)) (some (1/4))) = some (1/10) ∧
    solvedValue (solve_missing (2601/28000) (some 12000) (some 2000) (some (1/10)) none (some (1/4))) = some (67/1000) ∧
    solvedValue (solve_missing (2601/28000) (some 12000) (some 2000) (some (1/10)) (some (67/1000)) none) = some (1/4) ∧
    solvedValue (solve_missing (2601/28000) none (some 2000) (some (1/10)) (some (67/1000)) (some (1/4))) = some 12000 ∧
    solvedValue (solve_missing (2601/28000) (some 12000) none (some (1/10)) (some (67/1000)) (some (1/4))) = some 2000 := by
  have h := roundtrip_amended 12000 2000 (1/10) (67/1000) (1/4) (2601/28000)
    { equity_value := 12000, debt_value := 2000, cost_of_equity := 1/10, cost_of_debt := 67/1000,
      tax_rate := 1/4, equity_weight := 12000 / (12000 + 2000),
      debt_weight := 1 - 12000 / (12000 + 2000),
      wacc := (12000 / (12000 + 2000)) * (1/10) + (1 - 12000 / (12000 + 2000)) * (67/1000) * (1 - 1/4) }
    (by norm_num) (by norm_num) (by norm_num) (by norm_num) (by norm_num)
    (calculate_wacc_ok 12000 2000 (1/10) (67/1000) (1/4)
      (by norm_num) (by norm_num) (by norm_num) (by norm_num) (by norm_num))
    (by norm_num)
  exact ⟨h.1 (by norm_num), h.2.1 (by norm_num) (by norm_num), h.2.2.1 (by norm_num) (by norm_num),
    h.2.2.2.1 (by norm_num) (by norm_num), h.2.2.2.2 (by norm_num) (by norm_num)⟩

/-- C2: for valid inputs, `calculate_wacc` succeeds and its `wacc`
field is wE·Ke + wD·Kd·(1−T) with wE = E/(E+D), wD = 1−wE; in
particular calculate_wacc(E=0, D=100, Ke=0.10, Kd=0.06, T=0.25)
returns wE = 0, wD = 1 and wacc = 0.045. -/
theorem calculate_wacc_formula (e d ke kd t : ℚ) (he : 0 ≤ e) (hd : 0 ≤ d)
    (hs : 0 < e + d) (ht0 : 0 ≤ t) (ht1 : t ≤ 1) :
    calculate_wacc (some e) (some d) ke kd t =
      .ok { equity_value := e, debt_value := d, cost_of_equity := ke, cost_of_debt := kd,
            tax_rate := t, equity_weight := e / (e + d), debt_weight := 1 - e / (e + d),
            wacc := (e / (e + d)) * ke + (1 - e / (e + d)) * kd * (1 - t) } ∧
    calculate_wacc (some 0) (some 100) (1/10) (3/50) (1/4) =
      .ok { equity_value := 0, debt_value := 100, cost_of_equity := 1/10, cost_of_debt := 3/50,
            tax_rate := 1/4, equity_weight := 0, debt_weight := 1, wacc := 9/200 } :=
  ⟨calculate_wacc_ok e d ke kd t he hd hs ht0 ht1, by norm_num [calculate_wacc, _weights]⟩

/-- Witness for C2 at the spec's example E = 12000, D = 2000,
Ke = 0.10, Kd = 0.067, T = 0.25. -/
theorem calculate_wacc_formula_witness :
    calculate_wacc (some 12000) (some 2000) (1/10) (67/1000) (1/4) =
      .ok { equity_value := 12000, debt_value := 2000, cost_of_equity := 1/10,
            cost_of_debt := 67/1000, tax_rate := 1/4,
            equity_weight := 12000 / (12000 + 2000),
            debt_weight := 1 - 12000 / (12000 + 2000),
            wacc := (12000 / (12000 + 2000)) * (1/10) +
              (1 - 12000 / (12000 + 2000)) * (67/1000) * (1 - 1/4) } ∧
    calculate_wacc (some 0) (some 100) (1/10) (3/50) (1/4) =
      .ok { equity_value := 0, debt_value := 100, cost_of_equity := 1/10, cost_of_debt := 3/50,
            tax_rate := 1/4, equity_weight := 0, debt_weight := 1, wacc := 9/200 } :=
  calculate_wacc_formula 12000 2000 (1/10) (67/1000) (1/4)
    (by norm_num) (by norm_num) (by norm_num) (by norm_num) (by norm_num)

/-- C3: for E ≥ 0, D ≥ 0 with E + D > 0, `_weights` returns
wE = E/(E+D) and wD = 1 − wE, and wE + wD = 1 exactly. -/
theorem weights_formula (e d : ℚ) (he : 0 ≤ e) (hd : 0 ≤ d) (hs : 0 < e + d) :
    _weights (some e) (some d) = .ok (e / (e + d), 1 - e / (e + d)) ∧
    e / (e + d) + (1 - e / (e + d)) = 1 :=
  ⟨weights_ok e d he hd hs, by ring⟩

/-- Witness for C3 at E = 1, D = 1. -/
theorem weights_formula_witness :
    _weights (some 1) (some 1) = .ok ((1 : ℚ) / (1 + 1), 1 - (1 : ℚ) / (1 + 1)) ∧
    (1 : ℚ) / (1 + 1) + (1 - (1 : ℚ) / (1 + 1)) = 1 :=
  weights_formula 1 1 (by norm_num) (by norm_num) (by norm_num)

/-- C8: when `tax_rate` is absent and the denominator wD·Kd is
nonzero, `solve_missing` returns T = 1 − (wacc − wE·Ke)/(wD·Kd)
without re-validating that it lies in [0,1]; at wacc = 0.10, E = 0,
D = 100, Ke = 0.10, Kd = 0.06 it successfully returns the tax rate
−2/3, which is outside [0,1]. -/
theorem solve_T_no_range_check (w e d ke kd : ℚ) (he : 0 ≤ e) (hd : 0 ≤ d)
    (hs : 0 < e + d) (hne : (1 - e / (e + d)) * kd ≠ 0) :
    solve_missing w (some e) (some d) (some ke) (some kd) none =
      .ok { missing := .taxRate,
            value := 1 - (w - (e / (e + d)) * ke) / ((1 - e / (e + d)) * kd),
            wE := e / (e + d), wD := 1 - e / (e + d) } ∧
    solve_missing (1/10) (some 0) (some 100) (some (1/10)) (some (3/50)) none =
      .ok { missing := .taxRate, value := -2/3, wE := 0, wD := 1 } ∧
    ¬((0 : ℚ) ≤ -2/3 ∧ (-2/3 : ℚ) ≤ 1) := by
  refine ⟨solve_T_eval w e d ke kd he hd hs hne, ?_, by norm_num⟩
  norm_num [solve_missing, missingList, _weights]
  simp

/-- Witness for C8 at wacc = 0.10, E = 0, D = 100, Ke = 0.10,
Kd = 0.06. -/
theorem solve_T_no_range_check_witness :
    solve_missing (1/10) (some 0) (some 100) (some (1/10)) (some (3/50)) none =
      .ok { missing := .taxRate,
            value := 1 - ((1:ℚ)/10 - (0 / (0 + 100)) * (1/10)) / ((1 - 0 / (0 + 100)) * (3/50)),
            wE := 0 / (0 + 100), wD := 1 - 0 / (0 + 100) } ∧
    solve_missing (1/10) (some 0) (some 100) (some (1/10)) (some (3/50)) none =
      .ok { missing := .taxRate, value := -2/3, wE := 0, wD := 1 } ∧
    ¬((0 : ℚ) ≤ -2/3 ∧ (-2/3 : ℚ) ≤ 1) :=
  solve_T_no_range_check (1/10) 0 100 (1/10) (3/50)
    (by norm_num) (by norm_num) (by norm_num) (by norm_num)

/-- C10: `format_percent` ignores its `decimals` parameter entirely —
for every x and every two values of `decimals` it returns the same
string, namely x·100 rendered with exactly six digits after the
decimal point followed by a percent sign; e.g. 0.045 renders as
"4.500000%" for decimals = 3. -/
theorem format_percent_ignores_decimals (x : ℚ) (d1 d2 : ℕ) :
    format_percent x d1 = format_percent x d2 ∧
    format_percent x d1 = formatFixed6 (x * 100) ++ "%" ∧
    format_percent (9/200) 3 = "4.500000%" := by
  refine ⟨rfl, rfl, ?_⟩
  have habs : |(9 : ℚ)/200 * 100| * 1000000 = ((4500000 : ℤ) : ℚ) := by
    rw [abs_of_nonneg (by norm_num)]
    norm_num
  have hneg : ¬((9 : ℚ)/200 * 100 < 0) := by norm_num
  rw [format_percent, formatFixed6, habs, roundHalfEven_intCast, if_neg hneg]
  decide

/-- C4: when `equity_value` or `debt_value` is the absent variable and
the inferred weight wE = (wacc − Kd(1−T))/(Ke − Kd(1−T)) falls outside
[0,1], `solve_missing` fails with an `InconsistentInputs` error
carrying that wE, and a successful call in these branches never
returns a weight outside [0,1]; in particular an implied wE = 3/2
fails this way. -/
theorem inferred_weight_guard (w e d ke kd t : ℚ) :
    (¬(0 ≤ impliedWE w ke kd t ∧ impliedWE w ke kd t ≤ 1) →
      solve_missing w none (some d) (some ke) (some kd) (some t) =
        .error (.inconsistentInputs (impliedWE w ke kd t)) ∧
      solve_missing w (some e) none (some ke) (some kd) (some t) =
        .error (.inconsistentInputs (impliedWE w ke kd t))) ∧
    (∀ r, solve_missing w none (some d) (some ke) (some kd) (some t) = .ok r →
      0 ≤ r.wE ∧ r.wE ≤ 1 ∧ 0 ≤ r.wD ∧ r.wD ≤ 1) ∧
    (∀ r, solve_missing w (some e) none (some ke) (some kd) (some t) = .ok r →
      0 ≤ r.wE ∧ r.wE ≤ 1 ∧ 0 ≤ r.wD ∧ r.wD ≤ 1) ∧
    solve_missing (3/20) none (some 100) (some (1/10)) (some 0) (some (1/4)) =
      .error (.inconsistentInputs (3/2)) := by
  refine ⟨fun hout => ⟨solve_E_out_of_range w d ke kd t hout,
    solve_D_out_of_range w e ke kd t hout⟩, ?_, ?_, ?_⟩
  · intro r hr
    by_cases hz : ke - kd * (1 - t) = 0
    · rw [solve_E_denom_zero w d ke kd t hz] at hr
      exact absurd hr (by simp)
    · by_cases hrange : 0 ≤ impliedWE w ke kd t ∧ impliedWE w ke kd t ≤ 1
      · by_cases hwD : 1 - impliedWE w ke kd t = 0
        · have h1 : impliedWE w ke kd t = 1 := by linarith
          rw [solve_E_wD_zero w d ke kd t hz h1] at hr
          exact absurd hr (by simp)
        · rw [solve_E_eval w d ke kd t hz hrange hwD] at hr
          injection hr with hr
          subst hr
          exact ⟨hrange.1, hrange.2, by linarith [hrange.2], by linarith [hrange.1]⟩
      · rw [solve_E_out_of_range w d ke kd t hrange] at hr
        exact absurd hr (by simp)
  · intro r hr
    by_cases hz : ke - kd * (1 - t) = 0
    · rw [solve_D_denom_zero w e ke kd t hz] at hr
      exact absurd hr (by simp)
    · by_cases hrange : 0 ≤ impliedWE w ke kd t ∧ impliedWE w ke kd t ≤ 1
      · by_cases hwE : impliedWE w ke kd t = 0
        · rw [solve_D_wE_zero w e ke kd t hz hwE] at hr
          exact absurd hr (by simp)
        · rw [solve_D_eval w e ke kd t hz hrange hwE] at hr
          injection hr with hr
          subst hr
          exact ⟨hrange.1, hrange.2, by linarith [hrange.2], by linarith [hrange.1]⟩
      · rw [solve_D_out_of_range w e ke kd t hrange] at hr
        exact absurd hr (by simp)
  · norm_num [solve_missing, missingList]
    simp

/-- C5: every zero-denominator condition of `solve_missing` fails with
a `NotIdentifiable` error naming the degenerate condition: wE = 0 when
solving Ke; wD·(1−T) = 0 when solving Kd; wD·Kd = 0 when solving T;
Ke − Kd·(1−T) = 0, wD = 0, or wE = 0 in the equityValue/debtValue
branches; in particular Ke = Kd·(1−T) with `equity_value` absent fails
with `NotIdentifiable`. -/
theorem zero_denominator_guard (w e d ke kd t : ℚ) :
    (0 ≤ e → 0 ≤ d → 0 < e + d → e / (e + d) = 0 →
      solve_missing w (some e) (some d) none (some kd) (some t) =
        .error (.notIdentifiable "Cannot solve Ke when equity weight is zero.")) ∧
    (0 ≤ e → 0 ≤ d → 0 < e + d → (1 - e / (e + d)) * (1 - t) = 0 →
      solve_missing w (some e) (some d) (some ke) none (some t) =
        .error (.notIdentifiable "Cannot solve Kd: denominator zero (check D and T).")) ∧
    (0 ≤ e → 0 ≤ d → 0 < e + d → (1 - e / (e + d)) * kd = 0 →
      solve_missing w (some e) (some d) (some ke) (some kd) none =
        .error (.notIdentifiable "Cannot solve T: denominator zero (check D and Kd).")) ∧
    (ke - kd * (1 - t) = 0 →
      solve_missing w none (some d) (some ke) (some kd) (some t) =
        .error (.notIdentifiable "Cannot infer weights: Ke == Kd*(1-T).") ∧
      solve_missing w (some e) none (some ke) (some kd) (some t) =
        .error (.notIdentifiable "Cannot infer weights: Ke == Kd*(1-T).")) ∧
    (ke - kd * (1 - t) ≠ 0 → impliedWE w ke kd t = 1 →
      solve_missing w none (some d) (some ke) (some kd) (some t) =
        .error (.notIdentifiable "Debt weight zero; E not identifiable.")) ∧
    (ke - kd * (1 - t) ≠ 0 → impliedWE w ke kd t = 0 →
      solve_missing w (some e) none (some ke) (some kd) (some t) =
        .error (.notIdentifiable "Equity weight zero; D not identifiable.")) ∧
    solve_missing (1/10) none (some 100) (some (9/200)) (some (3/50)) (some (1/4)) =
      .error (.notIdentifiable "Cannot infer weights: Ke == Kd*(1-T).") := by
  refine ⟨fun h1 h2 h3 hz => solve_Ke_zero w e d kd t h1 h2 h3 hz,
    fun h1 h2 h3 hz => solve_Kd_zero w e d ke t h1 h2 h3 hz,
    fun h1 h2 h3 hz => solve_T_zero w e d ke kd h1 h2 h3 hz,
    fun hz => ⟨solve_E_denom_zero w d ke kd t hz, solve_D_denom_zero w e ke kd t hz⟩,
    fun hz h1 => solve_E_wD_zero w d ke kd t hz h1,
    fun hz h0 => solve_D_wE_zero w e ke kd t hz h0, ?_⟩
  norm_num [solve_missing, missingList]
  simp

/-- C7: `calculate_wacc` succeeds exactly when both capital values are
present and non-negative, their sum is nonzero, and the tax rate lies
in [0,1] — the cost rates are never range-checked — and every failure
is an `InvalidInput` error. -/
theorem calculate_wacc_invalid_iff (E D : Option ℚ) (ke kd t : ℚ) :
    ((∃ r, calculate_wacc E D ke kd t = .ok r) ↔
      (∃ e d, E = some e ∧ D = some d ∧ 0 ≤ e ∧ 0 ≤ d ∧ e + d ≠ 0 ∧ 0 ≤ t ∧ t ≤ 1)) ∧
    (∀ err, calculate_wacc E D ke kd t = .error err → ∃ msg, err = .invalidInput msg) := by
  constructor
  · constructor
    · rintro ⟨r, hr⟩
      rcases E with _ | e
      · simp [calculate_wacc, _weights] at hr
      rcases D with _ | d
      · simp [calculate_wacc, _weights] at hr
      by_cases hneg : e < 0 ∨ d < 0
      · simp [calculate_wacc, _weights, hneg] at hr
      by_cases hzero : e + d = 0
      · simp [calculate_wacc, _weights, hneg, hzero] at hr
      by_cases htx : 0 ≤ t ∧ t ≤ 1
      · push_neg at hneg
        exact ⟨e, d, rfl, rfl, hneg.1, hneg.2, hzero, htx.1, htx.2⟩
      · simp [calculate_wacc, _weights, hneg, hzero, htx] at hr
    · rintro ⟨e, d, rfl, rfl, he, hd, hsum, ht0, ht1⟩
      have hs : 0 < e + d := lt_of_le_of_ne (add_nonneg he hd) (Ne.symm hsum)
      exact ⟨_, calculate_wacc_ok e d ke kd t he hd hs ht0 ht1⟩
  · intro err herr
    rcases E with _ | e
    · simp [calculate_wacc, _weights] at herr
      exact ⟨_, herr.symm⟩
    rcases D with _ | d
    · simp [calculate_wacc, _weights] at herr
      exact ⟨_, herr.symm⟩
    by_cases hneg : e < 0 ∨ d < 0
    · simp [calculate_wacc, _weights, hneg] at herr
      exact ⟨_, herr.symm⟩
    by_cases hzero : e + d = 0
    · simp [calculate_wacc, _weights, hneg, hzero] at herr
      exact ⟨_, herr.symm⟩
    by_cases htx : 0 ≤ t ∧ t ≤ 1
    · simp [calculate_wacc, _weights, hneg, hzero, htx] at herr
    · simp [calculate_wacc, _weights, hneg, hzero, htx] at herr
      exact ⟨_, herr.symm⟩

/-- The only error values `_weights` can produce are its three
`InvalidInput` messages. -/
theorem weights_error_msgs (E D : Option ℚ) (err : WaccError) (h : _weights E D = .error err) :
    err = .invalidInput "Equity (E) and Debt (D) must be provided." ∨
    err = .invalidInput "Equity and Debt must be non-negative." ∨
    err = .invalidInput "E + D cannot be zero." := by
  rcases E with _ | e <;> rcases D with _ | d <;> simp only [_weights] at h
  · simp at h
    exact Or.inl h.symm
  · simp at h
    exact Or.inl h.symm
  · simp at h
    exact Or.inl h.symm
  · split at h
    · simp at h
      exact Or.inr (Or.inl h.symm)
    · split at h
      · simp at h
        exact Or.inr (Or.inr h.symm)
      · simp at h

theorem solve_count_not_one (wacc : ℚ) (E D Ke Kd T : Option ℚ)
    (h : (missingList E D Ke Kd T).length ≠ 1) :
    solve_missing wacc E D Ke Kd T =
      .error (.invalidInput "Provide exactly four inputs (one missing).") := by
  rcases hL : missingList E D Ke Kd T with _ | ⟨m, _ | ⟨m2, L⟩⟩
  · simp [solve_missing, hL]
  · rw [hL] at h
    simp at h
  · simp [solve_missing, hL]

theorem solve_one_not_count_err (wacc : ℚ) (E D Ke Kd T : Option ℚ)
    (h : (missingList E D Ke Kd T).length = 1) :
    solve_missing wacc E D Ke Kd T ≠
      .error (.invalidInput "Provide exactly four inputs (one missing).") := by
  rcases E with _ | e <;> rcases D with _ | d <;> rcases Ke with _ | ke <;>
    rcases Kd with _ | kd <;> rcases T with _ | t <;> simp [missingList] at h
  all_goals intro hcon
  all_goals simp [solve_missing, missingList] at hcon
  all_goals repeat' (split at hcon <;> try simp at hcon)
  all_goals
    rcases weights_error_msgs _ _ _ (by assumption) with hmsg | hmsg | hmsg <;>
      subst hmsg <;> simp at hcon

theorem solve_ok_missing (wacc : ℚ) (E D Ke Kd T : Option ℚ) (r : ReverseResult)
    (h : solve_missing wacc E D Ke Kd T = .ok r) :
    missingList E D Ke Kd T = [r.missing] := by
  rcases E with _ | e <;> rcases D with _ | d <;> rcases Ke with _ | ke <;>
    rcases Kd with _ | kd <;> rcases T with _ | t <;>
    simp [solve_missing, missingList] at h ⊢
  all_goals repeat' (split at h <;> try simp at h)
  all_goals subst h
  all_goals rfl

/-- C6: `solve_missing` fails with the `InvalidInput` count error
exactly when the number of absent arguments differs from one; with
exactly one absent argument that error never occurs, and a successful
call dispatches to the branch of the one absent variable (the result's
`missing` field is that variable). -/
theorem exactly_one_missing (wacc : ℚ) (E D Ke Kd T : Option ℚ) :
    ((missingList E D Ke Kd T).length ≠ 1 →
      solve_missing wacc E D Ke Kd T =
        .error (.invalidInput "Provide exactly four inputs (one missing).")) ∧
    ((missingList E D Ke Kd T).length = 1 →
      solve_missing wacc E D Ke Kd T ≠
        .error (.invalidInput "Provide exactly four inputs (one missing).")) ∧
    (∀ r, solve_missing wacc E D Ke Kd T = .ok r → missingList E D Ke Kd T = [r.missing]) :=
  ⟨solve_count_not_one wacc E D Ke Kd T, solve_one_not_count_err wacc E D Ke Kd T,
    fun r => solve_ok_missing wacc E D Ke Kd T r⟩

/-- C9: under the precondition that exactly one of the five optional
arguments is absent, the final fallback branch of `solve_missing`
("Unexpected solver state.", modelled by `unexpectedState`) is
unreachable. -/
theorem no_unexpected_state (wacc : ℚ) (E D Ke Kd T : Option ℚ)
    (h : (missingList E D Ke Kd T).length = 1) :
    solve_missing wacc E D Ke Kd T ≠ .error .unexpectedState := by
  rcases E with _ | e <;> rcases D with _ | d <;> rcases Ke with _ | ke <;>
    rcases Kd with _ | kd <;> rcases T with _ | t <;> simp [missingList] at h
  all_goals intro hcon
  all_goals simp [solve_missing, missingList] at hcon
  all_goals repeat' (split at hcon <;> try simp at hcon)
  all_goals
    rcases weights_error_msgs _ _ _ (by assumption) with hmsg | hmsg | hmsg <;>
      subst hmsg <;> simp at hcon

/-- Witness for C9 at a call with exactly `equity_value` absent. -/
theorem no_unexpected_state_witness :
    solve_missing (1/10) none (some 100) (some (1/10)) (some (3/50)) (some (1/4)) ≠
      .error .unexpectedState :=
  no_unexpected_state (1/10) none (some 100) (some (1/10)) (some (3/50)) (some (1/4)) (by rfl)

end WaccModule
